import Mathlib

/-!
# Verification of the gasless-transfer submission/retry orchestrator

Shallow embedding of `src/lib/hooks/useGaslessTransfer.ts` (the `transferSOL`
and `transferToken` functions returned by the `useGaslessTransfer` hook) from
the `lazorkit-solanaux` repository, together with proofs about the spec's
claims on it.

Modelling conventions:
* JavaScript strings are Lean `String`s; `String.prototype.includes` is
  modelled by `strContains` (substring test over the character list).
* JavaScript numbers used as transfer amounts are modelled as exact rationals
  together with a finiteness flag (`isFinite`); `NaN` and `Infinity` are
  represented by `amountFinite = false`.  Decimal formatting of numbers into
  error-message strings is approximated by `Rat` printing; no claim depends
  on the digit content of a composed message.
* The external collaborators (wallet SDK relay `signAndSendTransaction`, RPC
  `getAccountInfo` / `getAccount`, base58 parsing and curve membership of
  `PublicKey`) are oracles supplied as inputs: functions from a call counter
  to a response, and a `Chain` record describing address semantics.
* Every externally observable action (state-flag writes, network calls,
  instruction construction, submissions, waits) is recorded in an event
  trace; the claims are statements about outcomes and traces.
* The `while (retries <= maxRetries)` loops are translated to structural
  recursion on `fuel = maxRetries + 1 - retries`; a `retries++` followed by
  `continue` becomes a recursive call with one unit of fuel less, so the
  guard `retries <= maxRetries` is exactly `fuel > 0`.
-/

set_option autoImplicit false

namespace Gasless

/-! ## Strings: `String.prototype.includes` and the base58 address regex -/

/-- Is `pat` a prefix of `l`? (character-exact, like JS `startsWith`). -/
def listIsPrefix : List Char → List Char → Bool
  | [], _ => true
  | _ :: _, [] => false
  | a :: as, b :: bs => a == b && listIsPrefix as bs

/-- Does `l` contain `pat` as a contiguous sublist? -/
def listContains (pat : List Char) : List Char → Bool
  | [] => pat.isEmpty
  | c :: cs => listIsPrefix pat (c :: cs) || listContains pat cs

/-- JS `s.includes(pat)`. -/
def strContains (s pat : String) : Bool :=
  listContains pat.data s.data

/-- JS `s.trim()`: strip leading and trailing whitespace.  Implemented
over the character list so that it evaluates by kernel reduction. -/
def jsTrim (s : String) : String :=
  String.mk (((s.data.dropWhile Char.isWhitespace).reverse.dropWhile
    Char.isWhitespace).reverse)

/-- Characters of the base58 alphabet, as in the regex
`/[1-9A-HJ-NP-Za-km-z]{32,44}/` used at `useGaslessTransfer.ts:430`. -/
def isBase58Char (c : Char) : Bool :=
  (('1' ≤ c && c ≤ '9') ||
   ('A' ≤ c && c ≤ 'H') ||
   ('J' ≤ c && c ≤ 'N') ||
   ('P' ≤ c && c ≤ 'Z') ||
   ('a' ≤ c && c ≤ 'k') ||
   ('m' ≤ c && c ≤ 'z'))

/-- Length of the maximal base58-character run at the head of `l`. -/
def base58RunLen : List Char → Nat
  | [] => 0
  | c :: cs => if isBase58Char c then base58RunLen cs + 1 else 0

/-- Leftmost match of `/[1-9A-HJ-NP-Za-km-z]{32,44}/`: the first position
with at least 32 consecutive base58 characters, matched greedily up to 44. -/
def extractAddressAux : List Char → Option (List Char)
  | [] => none
  | c :: cs =>
    let r := base58RunLen (c :: cs)
    if 32 ≤ r then some ((c :: cs).take (min r 44)) else extractAddressAux cs

/-- `errorMessage.match(/[1-9A-HJ-NP-Za-km-z]{32,44}/)` at
`useGaslessTransfer.ts:430`, returning the matched text. -/
def extractAddress (s : String) : Option String :=
  (extractAddressAux s.data).map (fun l => String.mk l)

/-! ## Data model -/

/-- The network selector (`src/lib/store/walletStore.ts`:
`type Network = "devnet" | "mainnet"`). -/
inductive Network
  | devnet
  | mainnet
deriving DecidableEq, Repr

/-- The string the network enum denotes in the source. -/
def Network.str : Network → String
  | .devnet => "devnet"
  | .mainnet => "mainnet"

/-- A JavaScript error value as inspected by the hook: `error?.message`,
`error?.name`, `error?.code`, `error?.status`, `error?.stack`.  An absent
`message`/`stack` is the empty string (the code reads them with `|| ""`);
an absent or non-numeric `code`/`status` is `none`. -/
structure JsError where
  message : String := ""
  name : String := "Error"
  code : Option Int := none
  status : Option Int := none
  stack : String := ""
deriving DecidableEq, Repr

/-- Outcome of one call to the relay's `signAndSendTransaction`. -/
inductive RelayResp
  | success (sig : String)
  | failure (e : JsError)
deriving DecidableEq, Repr

/-- Outcome of one `connection.getAccountInfo` call while polling for the
chunk account: account found, account `null`, or a thrown error. -/
inductive PollResp
  | found
  | missing
  | err (message : String)
deriving DecidableEq, Repr

/-- Outcome of the pre-submission `connection.getAccountInfo(recipient)`
check in `transferSOL` (lines 241-251): the account's lamports, `null`,
or a thrown error. -/
inductive PrecheckResp
  | acct (lamports : Nat)
  | nullAcct
  | err (message : String)
deriving DecidableEq, Repr

/-- Outcome of `getAccount(connection, ata)` from `@solana/spl-token`:
the token-account amount in base units, or a thrown error. -/
inductive TokenAcctResp
  | acct (amount : Nat)
  | err (e : JsError)
deriving DecidableEq, Repr

/-- Kinds of instruction the hook constructs. -/
inductive Instr
  | solTransfer
  | createATA
  | tokenTransfer
deriving DecidableEq, Repr

/-- Observable events of one `transferSOL`/`transferToken` call. -/
inductive Event
  | setFlag (b : Bool)
  | netAcctInfo
  | netTokenAcct (which : String)
  | build (i : Instr)
  | refreshBlockhash
  | submit (clusterSimulation : Option String) (instrs : List Instr)
  | wait (ms : Nat)
  | poll (commitment : String)
deriving DecidableEq, Repr

/-- Is this event a network call (RPC query, blockhash fetch, relay call)? -/
def Event.isNet : Event → Bool
  | .netAcctInfo => true
  | .netTokenAcct _ => true
  | .refreshBlockhash => true
  | .submit _ _ => true
  | .poll _ => true
  | _ => false

/-- Number of `signAndSendTransaction` calls recorded in a trace. -/
def countSubmits (evs : List Event) : Nat :=
  evs.countP (fun e => match e with | .submit _ _ => true | _ => false)

/-- Number of instruction constructions recorded in a trace. -/
def countBuilds (evs : List Event) : Nat :=
  evs.countP (fun e => match e with | .build _ => true | _ => false)

/-- Number of network calls recorded in a trace. -/
def countNet (evs : List Event) : Nat :=
  evs.countP Event.isNet

/-- The instruction lists passed to the relay, in submission order. -/
def submitLists (evs : List Event) : List (List Instr) :=
  evs.filterMap (fun e => match e with | .submit _ l => some l | _ => none)

/-- Value of the `isTransferring` flag after replaying a trace from `b`. -/
def foldFlag (evs : List Event) (b : Bool) : Bool :=
  evs.foldl (fun acc e => match e with | .setFlag b' => b' | _ => acc) b

/-! ## Error classification (lines 367-426 / 991-1010 of the hook) -/

/-- Stale-transaction detection (`useGaslessTransfer.ts:374-379` and
`999-1004`): message contains `TransactionTooOld`, `Transaction is too old`,
`0x1783` or `6019`, or `error.code === 6019`. -/
def isTransactionTooOld (e : JsError) : Bool :=
  strContains e.message "TransactionTooOld" ||
  strContains e.message "Transaction is too old" ||
  strContains e.message "0x1783" ||
  e.code == some 6019 ||
  strContains e.message "6019"

/-- `CreateChunk`-phase detection (`useGaslessTransfer.ts:384-387` and
`1007-1010`): message or stack mentions `CreateChunk`. -/
def isCreateChunkError (e : JsError) : Bool :=
  strContains e.message "CreateChunk" ||
  strContains e.message "Instruction: CreateChunk" ||
  strContains e.stack "CreateChunk"

/-- Did the relay report its own retries exhausted
(`useGaslessTransfer.ts:394-395` and `1016-1017`)? -/
def paymasterRetried (e : JsError) : Bool :=
  strContains e.message "All retry attempts failed" ||
  strContains e.message "All sign retry attempts failed"

/-- Account-not-found detection (`useGaslessTransfer.ts:423-426`). -/
def isAccountNotFound (e : JsError) : Bool :=
  strContains e.message "Account does not exist" ||
  strContains e.message "has no data" ||
  strContains e.message "could not find account"

/-- Chunk-account detection (`useGaslessTransfer.ts:527-535`): message
mentions `chunk`/`Chunk`, or the stack carries one of the SDK-internal
markers. -/
def isChunkAccountError (e : JsError) : Bool :=
  strContains e.message "chunk" ||
  strContains e.message "Chunk" ||
  strContains e.stack "fetchChunkContext" ||
  strContains e.stack "buildExecuteChunkIns" ||
  strContains e.stack "executeChunkTxn" ||
  strContains e.stack "lazorkit.ts:162" ||
  strContains e.stack "lazorkit.ts:593" ||
  strContains e.stack "lazorkit.ts:879"

/-- Rate-limit detection while polling the chunk account
(`useGaslessTransfer.ts:599-600`): only the message is inspected. -/
def isPollRateLimit (message : String) : Bool :=
  strContains message "429" || strContains message "Too many requests"

/-- Rate-limit detection in the sender token-account check
(`useGaslessTransfer.ts:853-859`): message, `code`, `status`. -/
def isRateLimitSender (e : JsError) : Bool :=
  strContains e.message "429" ||
  e.code == some 429 ||
  e.status == some 429 ||
  strContains e.message "Too many requests" ||
  strContains e.message "Too many requests from your IP"

/-- Rate-limit detection in the recipient token-account check
(`useGaslessTransfer.ts:892-897`). -/
def isRateLimitRecipient (e : JsError) : Bool :=
  strContains e.message "429" ||
  e.code == some 429 ||
  e.status == some 429 ||
  strContains e.message "Too many requests"

/-- Token-account-not-found detection in the `getAccount` catch blocks
(`useGaslessTransfer.ts:864` and `900`). -/
def isTokenAcctNotFound (e : JsError) : Bool :=
  e.name == "TokenAccountNotFoundError" ||
  strContains e.message "could not find account"

/-! ## Oracles and call context -/

/-- Address semantics of the host chain, as used through
`@solana/web3.js`/`@solana/spl-token`: `new PublicKey s` either throws
(with some message) or yields a canonical base58 form; `isOnCurve` and the
associated-token-address derivation are total functions of canonical
addresses.  (`getAssociatedTokenAddressSync` is called with
`allowOwnerOffCurve := !isOnCurve owner`, so its off-curve throw path is
unreachable and it is modelled as total.) -/
structure Chain where
  parse : String → Except String String
  isOnCurve : String → Bool
  ata : String → String → String

/-- The wallet-hook state visible to a `transferSOL`/`transferToken` call:
the render-time `effectiveWalletAddress`/`effectiveSenderPubkey` pair and
the values the in-call re-resolution (lines 140-162) would produce.  The
pubkey is carried as its base58 form. -/
structure WalletCtx where
  isConnected : Bool
  renderAddr : Option String
  renderPk : Option String
  retryAddr : Option String
  retryPk : Option String

/-- The `TransferOptions` argument (lines 53-58).  `amount` is the exact
rational value of the JS number when finite; `amountFinite = false` models
`NaN`/`Infinity` (for which `isFinite` is false and numeric comparisons
with `0` are false). -/
structure TransferOptions where
  recipient : String
  amount : ℚ
  amountFinite : Bool := true
  tokenMint : Option String := none
  feeTokenUSDC : Bool := false

/-- Responses of the external world, indexed by per-oracle call counters. -/
structure Env where
  relay : Nat → RelayResp
  polls : Nat → PollResp
  precheck : PrecheckResp
  senderAcct : TokenAcctResp
  recipientAcct : TokenAcctResp

/-- `maxRetries` (lines 325 / 953). -/
def maxRetries : Nat := 2

/-- Outcome of a call: the returned signature or the thrown error. -/
abbrev Outcome := Except JsError String

/-- Build a plain `new Error(msg)` value. -/
def mkErr (msg : String) : JsError := { message := msg }

/-- `USDC_MINT_MAINNET` (local constant at `useGaslessTransfer.ts:270`). -/
def USDC_MINT_MAINNET : String := "EPjFWdd5AufqSSqeM2qN1xzybapC8G4wEGGkZwyTDt1v"

/-- `USDC_MINT_DEVNET` (local constant at `useGaslessTransfer.ts:271`). -/
def USDC_MINT_DEVNET : String := "4zMMC9srt5Ri5X14GAgXhaHii3GnPAEERYPJgZJDncDU"

/-- `DEVNET_USDC_MINT` (`src/lib/config/lazorkit.ts:47`). -/
def DEVNET_USDC_MINT : String := "4zMMC9srt5Ri5X14GAgXhaHii3GnPAEERYPJgZJDncDU"

/-- `MAINNET_USDC_MINT`: imported by the hook from `@/lib/config/lazorkit`,
but not defined in the config file present under `src/`; its value is the
mainnet USDC mint used elsewhere in the repository
(`src/lib/hooks/useTokenSwap.ts:31`).  No claim depends on the exact
string. -/
def MAINNET_USDC_MINT : String := "EPjFWdd5AufqSSqeM2qN1xzybapC8G4wEGGkZwyTDt1v"

/-- Decimal rendering of a rational into a composed error message.  JS
renders numbers in decimal notation; the digit content of messages is
irrelevant to every claim, so fraction notation is an acceptable stand-in
for non-integral values. -/
def ratStr (q : ℚ) : String :=
  if q.den == 1 then toString q.num
  else toString q.num ++ "/" ++ toString q.den

/-- `baseWaitTime`/`additionalWait` (lines 562 and 619): 15s on devnet,
5s on mainnet. -/
def chunkBase : Network → Nat
  | .devnet => 15000
  | .mainnet => 5000

/-! ## The chunk-account polling loop (lines 576-612)

`maxPollAttempts = Math.ceil(waitTime / 1000)` where `waitTime` is a
multiple of 1000, so the ceiling is exact division.  The loop is
`while (pollAttempts < maxPollAttempts && !accountAvailable)`; translated
to structural recursion on `remaining = maxPollAttempts - pollAttempts`.
Each iteration queries the chunk account at `"finalized"` and, when that
returns `null`, again at `"confirmed"`; a throw from either query is
caught, and a rate-limited throw inserts a 2-second pause; after an
unsuccessful iteration a 1-second pause occurs when attempts remain.
`new PublicKey(errorAccountAddress)` on the regex-extracted base58 run is
modelled as total.  Returns (accountAvailable, next poll-call index,
events). -/

def pollLoop (polls : Nat → PollResp) : Nat → Nat → Bool × Nat × List Event
  | pollIdx, 0 => (false, pollIdx, [])
  | pollIdx, remaining + 1 =>
    match polls pollIdx with
    | .found => (true, pollIdx + 1, [Event.poll "finalized"])
    | .missing =>
      match polls (pollIdx + 1) with
      | .found => (true, pollIdx + 2, [Event.poll "finalized", Event.poll "confirmed"])
      | .missing =>
        let tail := if remaining == 0 then [] else [Event.wait 1000]
        let r := pollLoop polls (pollIdx + 2) remaining
        (r.1, r.2.1, [Event.poll "finalized", Event.poll "confirmed"] ++ tail ++ r.2.2)
      | .err m =>
        let rl := if isPollRateLimit m then [Event.wait 2000] else []
        let tail := if remaining == 0 then [] else [Event.wait 1000]
        let r := pollLoop polls (pollIdx + 2) remaining
        (r.1, r.2.1, [Event.poll "finalized", Event.poll "confirmed"] ++ rl ++ tail ++ r.2.2)
    | .err m =>
      let rl := if isPollRateLimit m then [Event.wait 2000] else []
      let tail := if remaining == 0 then [] else [Event.wait 1000]
      let r := pollLoop polls (pollIdx + 1) remaining
      (r.1, r.2.1, [Event.poll "finalized"] ++ rl ++ tail ++ r.2.2)

/-! ## The `transferSOL` submission/retry loop (lines 323-673) -/

/-- The context the SOL retry loop closes over. -/
structure SolCtx where
  network : Network
  optsRecipient : String
  recipientAddress : String
  accountExists : Bool
deriving Repr

/-- Terminal message at lines 478-485. -/
def simFailMsg (cx : SolCtx) : String :=
  "Transaction failed: Account \"" ++ cx.optsRecipient ++
  "\" exists but portal simulation is failing. This might be due to:\n" ++
  "- Network mismatch (account might be on " ++
  (match cx.network with | .devnet => "mainnet" | .mainnet => "devnet") ++ ")\n" ++
  "- RPC endpoint issues\n- Portal simulation service issues\n\n" ++
  "Please verify you're on the correct network (" ++ cx.network.str ++ ") and try again."

/-- Terminal message at lines 508-515. -/
def blockedMsg (cx : SolCtx) : String :=
  "Transaction blocked: The recipient account \"" ++ cx.optsRecipient ++
  "\" does not exist yet. On Solana, accounts are created automatically when SOL is sent, " ++
  "but the portal's simulation requires the account to exist first. \n\nWorkarounds:\n" ++
  "1. Send to an address that already has a balance\n" ++
  "2. Fund the recipient address with a small amount first\n" ++
  "3. Use a different recipient address that already exists"

/-- Terminal message at lines 638-648. -/
def chunkFailMsg (cx : SolCtx) (addr : String) : String :=
  "Transaction failed: Chunk account not yet available after retries. " ++
  "The transaction chunk was created but the account \"" ++ addr ++
  "\" hasn't been indexed by the RPC yet. \n\nThis is a known issue with " ++
  cx.network.str ++ " RPC indexing delays. " ++
  "Public RPC endpoints can take 15-30 seconds to index accounts after confirmation. " ++
  "\n\nSolutions:\n1. Wait 20-30 seconds and try again\n" ++
  "2. Use a faster RPC endpoint (e.g., Helius, QuickNode)\n" ++
  "3. Try on mainnet (faster indexing)\n\n" ++
  "The chunk account should be indexed shortly. This is a temporary RPC limitation, not a transaction failure."

/-- Terminal message at lines 662-666. -/
def otherAcctMsg (cx : SolCtx) (msg : String) (addr : Option String) : String :=
  "Transaction failed: " ++ msg ++ ". This error is about account \"" ++
  addr.getD "unknown" ++ "\", not the recipient \"" ++ cx.optsRecipient ++
  "\". This might be a temporary RPC indexing issue. Please wait 5-10 seconds and try again."

/-- The `while (retries <= maxRetries)` loop of `transferSOL`
(lines 327-673), on `fuel = maxRetries + 1 - retries`.  Arguments after
`fuel`: current `retries`, the relay call counter, the poll call counter.
The fuel-0 branch is the loop exit with no signature (lines 675-677). -/
def solRetryLoop (cx : SolCtx) (env : Env) :
    Nat → Nat → Nat → Nat → Outcome × List Event
  | 0, _, _, _ =>
    (.error (mkErr "Failed to send transaction after retries. Please try again."), [])
  | fuel + 1, retries, callIdx, pollIdx =>
    -- lines 329-335: clusterSimulation only when the recipient pre-check
    -- found the account; lines 337-365: submit
    let sim : Option String := if cx.accountExists then some cx.network.str else none
    let sub := Event.submit sim [Instr.solTransfer]
    match env.relay callIdx with
    | .success sig => (.ok sig, [sub])
    | .failure e =>
      if isTransactionTooOld e && decide (retries < maxRetries) then
        -- lines 389-419: stale-transaction recovery
        let w := if isCreateChunkError e || paymasterRetried e
                 then (match cx.network with | .devnet => 3000 | .mainnet => 2000)
                 else 1000
        let r := solRetryLoop cx env fuel (retries + 1) (callIdx + 1) pollIdx
        (r.1, sub :: Event.refreshBlockhash :: Event.wait w :: r.2)
      else if isAccountNotFound e then
        -- lines 428-436
        let addr? := extractAddress e.message
        let aboutRecipient :=
          addr? == some cx.recipientAddress ||
          strContains e.message cx.recipientAddress ||
          strContains e.message cx.optsRecipient
        if aboutRecipient then
          if cx.accountExists then
            if decide (retries < maxRetries) then
              -- lines 455-475: retry once, inside the catch, without
              -- clusterSimulation
              let isub := Event.submit none [Instr.solTransfer]
              match env.relay (callIdx + 1) with
              | .success sig => (.ok sig, [sub, isub])
              | .failure _ =>
                let r := solRetryLoop cx env fuel (retries + 1) (callIdx + 2) pollIdx
                (r.1, sub :: isub :: Event.wait 2000 :: r.2)
            else (.error (mkErr (simFailMsg cx)), [sub])
          else
            if decide (retries < maxRetries) then
              -- lines 488-506: same inner retry, 1s wait on failure
              let isub := Event.submit none [Instr.solTransfer]
              match env.relay (callIdx + 1) with
              | .success sig => (.ok sig, [sub, isub])
              | .failure _ =>
                let r := solRetryLoop cx env fuel (retries + 1) (callIdx + 2) pollIdx
                (r.1, sub :: isub :: Event.wait 1000 :: r.2)
            else (.error (mkErr (blockedMsg cx)), [sub])
        else
          if isChunkAccountError e && addr?.isSome then
            if decide (retries < maxRetries) then
              -- lines 553-635: poll for the chunk account, then wait the
              -- network-dependent buffer regardless of the poll result
              let waitTime := chunkBase cx.network * (retries + 1)
              let p := pollLoop env.polls pollIdx (waitTime / 1000)
              let r := solRetryLoop cx env fuel (retries + 1) (callIdx + 1) p.2.1
              (r.1, sub :: (p.2.2 ++ (Event.wait (chunkBase cx.network) :: r.2)))
            else (.error (mkErr (chunkFailMsg cx (addr?.getD ""))), [sub])
          else
            if decide (retries < maxRetries) then
              -- lines 652-659: generic account-error retry, 3s * retries
              let r := solRetryLoop cx env fuel (retries + 1) (callIdx + 1) pollIdx
              (r.1, sub :: Event.wait (3000 * (retries + 1)) :: r.2)
            else (.error (mkErr (otherAcctMsg cx e.message addr?)), [sub])
      else
        -- line 671: unknown error, re-thrown unchanged
        (.error e, [sub])

/-! ## `transferSOL` (lines 130-699) -/

/-- Body of the `try` block of `transferSOL` (lines 178-691).  The
instruction-sanity checks at lines 297-311 compare fields of the
just-constructed `SystemProgram.transfer` instruction against the very
values it was constructed from and always pass; they are not modelled. -/
def solBody (W : WalletCtx) (chain : Chain) (network : Network)
    (opts : TransferOptions) (env : Env) : Outcome × List Event :=
  -- lines 180-182: recipient required
  if jsTrim opts.recipient == "" then
    (.error (mkErr "Recipient address is required"), [])
  else
    -- lines 184-199: parse, then on-curve; a parse failure is wrapped, the
    -- on-curve error is re-thrown as-is by the catch
    match chain.parse (jsTrim opts.recipient) with
    | .error pmsg =>
      (.error (mkErr ("Invalid recipient address: " ++ opts.recipient ++ ". " ++ pmsg)), [])
    | .ok recipientAddress =>
      if !chain.isOnCurve recipientAddress then
        (.error (mkErr "Recipient address is not a valid on-curve Solana address. SOL can only be sent to on-curve addresses."), [])
      else if some recipientAddress == W.renderAddr then
        -- lines 201-204: self-transfer check, against the render-time address
        (.error (mkErr "Cannot send SOL to your own address. Please use a different recipient address."), [])
      else
        -- lines 206-210: render-time pubkey required (not the re-resolved one)
        match W.renderPk with
        | none =>
          (.error (mkErr "Smart wallet (Passkey Wallet) address not available. Please reconnect your wallet."), [])
        | some senderPk =>
          -- lines 231-234: amount validation
          if decide (opts.amount ≤ 0) || !opts.amountFinite then
            (.error (mkErr "Amount must be greater than 0"), [])
          else
            -- lines 236-251: recipient-account existence pre-check (an RPC
            -- call; errors are swallowed and count as "does not exist")
            let accountExists :=
              match env.precheck with
              | .acct l => decide (0 < l)
              | .nullAcct => false
              | .err _ => false
            -- line 254: instruction construction (once, before the loop);
            -- the instruction payload (sender, recipient,
            -- `options.amount * LAMPORTS_PER_SOL`) is opaque to every claim
            -- and abstracted by the build event
            let pre := [Event.netAcctInfo, Event.build Instr.solTransfer]
            -- lines 261-267: the sender must be the render-time address
            if some senderPk != W.renderAddr then
              (.error (mkErr ("Invalid sender address. Expected Passkey Wallet (" ++
                W.renderAddr.getD "null" ++ "), but got " ++ senderPk ++
                ". Please reconnect your wallet.")), pre)
            else if recipientAddress == USDC_MINT_MAINNET ||
                    recipientAddress == USDC_MINT_DEVNET then
              -- lines 269-278: known-token-mint recipient check
              (.error (mkErr ("Invalid recipient address: \"" ++ recipientAddress ++
                "\" is a token mint address, not a wallet address. " ++
                "You cannot send SOL to a token mint. Please enter a valid Solana wallet address " ++
                "(starts with a letter, 32-44 characters).")), pre)
            else
              -- line 314: proactive blockhash refresh, then the retry loop
              let cx : SolCtx :=
                { network := network, optsRecipient := opts.recipient,
                  recipientAddress := recipientAddress, accountExists := accountExists }
              let r := solRetryLoop cx env (maxRetries + 1) 0 0 0
              (r.1, pre ++ (Event.refreshBlockhash :: r.2))

/-- `transferSOL` (lines 130-699).  The checks before
`setIsTransferring(true)` (connection and wallet-address resolution,
lines 131-172) throw outside the `try`/`finally`, so their traces carry no
flag events; everything else runs between `setFlag true` and the
`finally` `setFlag false`.  The `catch` at lines 692-695 re-throws the
error unchanged (after a toast). -/
def transferSOL (W : WalletCtx) (chain : Chain) (network : Network)
    (opts : TransferOptions) (env : Env) : Outcome × List Event :=
  if !W.isConnected then
    (.error (mkErr "Wallet not connected. Please connect your Passkey Wallet first."), [])
  else
    -- lines 137-172: one re-resolution attempt; `retryAddr`/`retryPk` model
    -- the final values the re-resolution block leaves in
    -- `currentEffectiveWalletAddress`/`currentEffectiveSenderPubkey`
    let current :=
      if W.renderAddr.isSome && W.renderPk.isSome then (W.renderAddr, W.renderPk)
      else (W.retryAddr, W.retryPk)
    if current.1.isNone || current.2.isNone then
      (.error (mkErr ("Passkey Wallet (smart wallet) address not available. " ++
        "Please ensure your wallet is fully connected and try again. " ++
        "If the issue persists, try disconnecting and reconnecting your wallet.")), [])
    else
      let r := solBody W chain network opts env
      (r.1, Event.setFlag true :: (r.2 ++ [Event.setFlag false]))

/-! ## `transferToken` (lines 704-1070) -/

/-- The `catch` block of the sender token-account check (lines 846-881).
Note the insufficient-balance error thrown *inside* the `try`
(lines 840-844) also lands here and, matching none of the branches,
falls into the final "log and proceed" case. -/
def tokenSenderCatch (e : JsError) : Except JsError Unit :=
  if isRateLimitSender e then .ok ()
  else if isTokenAcctNotFound e then
    if !(strContains e.message "429" || strContains e.message "Too many requests") then
      .error (mkErr "Sender token account not found. You need to receive USDC first to create a token account.")
    else .ok ()
  else .ok ()

/-- The `while (retries <= maxRetries)` loop of `transferToken`
(lines 955-1044), on `fuel = maxRetries + 1 - retries`.  Only the
stale-transaction class is retried; any other error is re-thrown
(line 1042). -/
def tokenRetryLoop (network : Network) (instrs : List Instr) (env : Env) :
    Nat → Nat → Nat → Outcome × List Event
  | 0, _, _ =>
    (.error (mkErr "Failed to send transaction after retries. Please try again."), [])
  | fuel + 1, retries, callIdx =>
    -- lines 957-960: feeToken defaults to USDC, clusterSimulation is always
    -- the current network
    let sub := Event.submit (some network.str) instrs
    match env.relay callIdx with
    | .success sig => (.ok sig, [sub])
    | .failure e =>
      if isTransactionTooOld e && decide (retries < maxRetries) then
        -- lines 1012-1038
        let w := if isCreateChunkError e || paymasterRetried e
                 then (match network with | .devnet => 3000 | .mainnet => 2000)
                 else 1000
        let r := tokenRetryLoop network instrs env fuel (retries + 1) (callIdx + 1)
        (r.1, sub :: Event.refreshBlockhash :: Event.wait w :: r.2)
      else
        (.error e, [sub])

/-- Pure validation prefix of the `transferToken` `try` block
(lines 729-788): network-specific default mint, mint parsing, sender
pubkey resolution (both paths end in the base58 length check at
lines 757-761), recipient pubkey.  Returns `(tokenMint, senderPk,
recipientPk)`; no network call happens here. -/
def tokenValidate (W : WalletCtx) (chain : Chain) (network : Network)
    (opts : TransferOptions) : Except JsError (String × String × String) :=
  let usdcMint := match network with
    | .mainnet => MAINNET_USDC_MINT
    | .devnet => DEVNET_USDC_MINT
  -- `options.tokenMint || usdcMint`: an absent or empty (falsy) string
  -- falls back to the network default
  let mintStr := match opts.tokenMint with
    | some t => if t == "" then usdcMint else t
    | none => usdcMint
  match chain.parse mintStr with
  | .error _ =>
    .error (mkErr ("Invalid token mint address: " ++ mintStr))
  | .ok tokenMint =>
    let senderRes : Except JsError String :=
      match W.renderPk with
      | some pk =>
        if decide (pk.length < 32) then
          .error (mkErr "Invalid sender wallet address: Invalid public key format. Please reconnect your wallet.")
        else .ok pk
      | none =>
        match W.renderAddr with
        | some a =>
          if decide (a.length < 32) then
            .error (mkErr "Invalid sender wallet address: Wallet address is too short or invalid. Please reconnect your wallet.")
          else
            match chain.parse a with
            | .error m =>
              .error (mkErr ("Invalid sender wallet address: " ++ m ++ ". Please reconnect your wallet."))
            | .ok pk =>
              if decide (pk.length < 32) then
                .error (mkErr "Invalid sender wallet address: Invalid public key format. Please reconnect your wallet.")
              else .ok pk
        | none =>
          .error (mkErr "Invalid sender wallet address: No wallet address available. Please reconnect your wallet.")
    match senderRes with
    | .error e => .error e
    | .ok senderPk =>
      match chain.parse (jsTrim opts.recipient) with
      | .error m =>
        .error (mkErr ("Invalid recipient address: " ++ opts.recipient ++ ". " ++ m))
      | .ok rk =>
        if decide (rk.length < 32) then
          .error (mkErr ("Invalid recipient address: " ++ opts.recipient ++ ". Recipient address format is invalid"))
        else .ok (tokenMint, senderPk, rk)

/-- The comparison `balance < options.amount * 1_000_000` (line 840) over
exact rationals, written in cross-multiplied integer form so that it
evaluates by kernel reduction; `balanceLtRequired_spec` below proves it
equivalent to the rational comparison. -/
def balanceLtRequired (balance : Nat) (amount : ℚ) : Bool :=
  decide ((balance : ℤ) * amount.den < amount.num * 1000000)

/-- The sender token-account balance check (lines 832-881): an RPC
`getAccount` call; on success the balance is compared against
`amount * 10^6`, and a shortfall *throws inside the same `try`*, so the
thrown insufficient-balance error is processed by `tokenSenderCatch`
like any query error.  (The `Available` figure, `balance / 10^6`, is
rendered through `ratStr`.) -/
def tokenSenderCheck (opts : TransferOptions) (env : Env) : Except JsError Unit :=
  match env.senderAcct with
  | .acct balance =>
    if balanceLtRequired balance opts.amount then
      tokenSenderCatch (mkErr ("Insufficient balance. Required: " ++
        ratStr opts.amount ++ " USDC, Available: " ++
        ratStr (mkRat balance 1000000) ++ " USDC"))
    else .ok ()
  | .err e => tokenSenderCatch e

/-- Body of the `try` block of `transferToken` (lines 722-1062). -/
def tokenBody (W : WalletCtx) (chain : Chain) (network : Network)
    (opts : TransferOptions) (env : Env) : Outcome × List Event :=
  match tokenValidate W chain network opts with
  | .error e => (.error e, [])
  | .ok (tokenMint, senderPk, rk) =>
    -- lines 790-830: ATA derivation, off-curve owners allowed
    let senderATA := chain.ata tokenMint senderPk
    let recipientATA := chain.ata tokenMint rk
    let _ := senderATA
    let _ := recipientATA
    match tokenSenderCheck opts env with
    | .error e2 => (.error e2, [Event.netTokenAcct "sender"])
    | .ok _ =>
      -- lines 883-918: recipient token-account check; every branch of
      -- the catch appends the create-ATA instruction
      let ataInstrs : List Instr :=
        match env.recipientAcct with
        | .acct _ => []
        | .err _ => [Instr.createATA]
      -- lines 920-928: transfer instruction appended after
      let instrs := ataInstrs ++ [Instr.tokenTransfer]
      let buildEvs := (ataInstrs.map Event.build) ++ [Event.build Instr.tokenTransfer]
      -- line 931: blockhash refresh; lines 955-1044: retry loop
      let r := tokenRetryLoop network instrs env (maxRetries + 1) 0 0
      (r.1, Event.netTokenAcct "sender" :: Event.netTokenAcct "recipient" ::
        (buildEvs ++ (Event.refreshBlockhash :: r.2)))

/-- `transferToken` (lines 704-1070).  The checks at lines 705-716 run
before `setIsTransferring(true)`; the rest runs between `setFlag true`
and the `finally` `setFlag false`.  There is no self-transfer check. -/
def transferToken (W : WalletCtx) (chain : Chain) (network : Network)
    (opts : TransferOptions) (env : Env) : Outcome × List Event :=
  if !W.isConnected || W.renderAddr.isNone then
    (.error (mkErr "Wallet not connected"), [])
  else if jsTrim (W.renderAddr.getD "") == "" then
    (.error (mkErr "Invalid wallet address. Please reconnect your wallet."), [])
  else if jsTrim opts.recipient == "" then
    (.error (mkErr "Recipient address is required"), [])
  else
    let r := tokenBody W chain network opts env
    (r.1, Event.setFlag true :: (r.2 ++ [Event.setFlag false]))

/-! ## Auxiliary trace predicates -/

/-- Number of `"finalized"`-commitment polls in a trace: each iteration of
the chunk-polling loop performs exactly one, so this counts iterations. -/
def countFinalizedPolls (evs : List Event) : Nat :=
  evs.countP (fun e => e == Event.poll "finalized")

/-- Events the `transferSOL` retry loop may emit: submissions always carry
the single pre-built transfer instruction; no instruction construction, no
flag write, no non-poll RPC read happens inside the loop. -/
def solLoopEvOK : Event → Bool
  | .submit _ l => l == [Instr.solTransfer]
  | .build _ => false
  | .setFlag _ => false
  | .netAcctInfo => false
  | .netTokenAcct _ => false
  | _ => true

/-- Events the `transferToken` retry loop may emit, relative to the
instruction list built before the loop. -/
def tokenLoopEvOK (instrs : List Instr) : Event → Bool
  | .submit _ l => l == instrs
  | .build _ => false
  | .setFlag _ => false
  | .netAcctInfo => false
  | .netTokenAcct _ => false
  | .poll _ => false
  | _ => true

/-- Events the chunk-polling loop may emit: account reads at the two
commitment levels, 1-second inter-iteration pauses and 2-second rate-limit
pauses only. -/
def pollEvOK : Event → Bool
  | .poll c => c == "finalized" || c == "confirmed"
  | .wait m => m == 1000 || m == 2000
  | _ => false

/-- Are all elements of the list equal (to the first one)? -/
def allSame (ls : List (List Instr)) : Bool :=
  match ls with
  | [] => true
  | x :: xs => xs.all (fun y => y == x)

/-! ## Concrete fixtures for witnesses and counterexamples

An address oracle on which every string parses to itself and every address
is on-curve, a resolved wallet, and request/response environments that
drive the model through the scenarios the claims speak about. -/

/-- Address oracle: parsing is the identity, every address on-curve. -/
def chainF : Chain :=
  { parse := fun s => .ok s
    isOnCurve := fun _ => true
    ata := fun m o => "ATA:" ++ m ++ ":" ++ o }

/-- A fully resolved, connected wallet. -/
def senderAddrF : String := "SSSSSSSSSSSSSSSSSSSSSSSSSSSSSSSSSS"

/-- A 34-character base58 recipient distinct from the sender. -/
def recipAddrF : String := "RRRRRRRRRRRRRRRRRRRRRRRRRRRRRRRRRR"

def wOkF : WalletCtx :=
  { isConnected := true
    renderAddr := some senderAddrF
    renderPk := some senderAddrF
    retryAddr := none
    retryPk := none }

/-- Benign environment: the relay succeeds at once, the recipient exists,
both token accounts exist with ample balance. -/
def benignEnvF : Env :=
  { relay := fun _ => .success "sigA"
    polls := fun _ => .missing
    precheck := .acct 5
    senderAcct := .acct 10000000
    recipientAcct := .acct 1 }

/-- A 1-unit transfer to the fixture recipient. -/
def optsOkF : TransferOptions :=
  { recipient := recipAddrF, amount := 1 }

/-- A stale-transaction relay error. -/
def staleErrF : JsError := { message := "TransactionTooOld" }

/-- First submission stale, second succeeds. -/
def envStaleF : Env :=
  { benignEnvF with relay := fun n => if n == 0 then .failure staleErrF else .success "sigB" }

/-- A relay error reporting the recipient account as missing. -/
def acctErrF : JsError :=
  { message := "Account does not exist RRRRRRRRRRRRRRRRRRRRRRRRRRRRRRRRRR" }

/-- Every submission fails with the recipient-missing error. -/
def envAcctF : Env := { benignEnvF with relay := fun _ => .failure acctErrF }

/-- Transfer whose recipient is the known devnet USDC mint. -/
def optsMintF : TransferOptions :=
  { recipient := "4zMMC9srt5Ri5X14GAgXhaHii3GnPAEERYPJgZJDncDU", amount := 1 }

/-- Same recipient, zero amount. -/
def optsMint0F : TransferOptions :=
  { recipient := "4zMMC9srt5Ri5X14GAgXhaHii3GnPAEERYPJgZJDncDU", amount := 0 }

/-- A transfer whose recipient is the sender's own smart-wallet address. -/
def optsSelfF : TransferOptions :=
  { recipient := senderAddrF, amount := 1 }

/-- A 5-unit token transfer to the fixture recipient. -/
def opts5F : TransferOptions :=
  { recipient := recipAddrF, amount := 5 }

/-- Sender token account exists but holds nothing. -/
def envPoorF : Env := { benignEnvF with senderAcct := .acct 0 }

/-- The recipient token-account query is rate-limited. -/
def rateLimitErrF : JsError := { message := "429 Too many requests" }

def envRateLimitF : Env := { benignEnvF with recipientAcct := .err rateLimitErrF }

/-- An error matching no classifier. -/
def unknownErrF : JsError := { message := "boom" }

def envUnknownF : Env := { benignEnvF with relay := fun _ => .failure unknownErrF }

/-- Retry-loop context of a benign devnet transfer with an existing
recipient. -/
def solCtxF : SolCtx :=
  { network := .devnet
    optsRecipient := recipAddrF
    recipientAddress := recipAddrF
    accountExists := true }

/-! ## Trace-counting lemmas -/

@[simp]
theorem countSubmits_nil : countSubmits [] = 0 := rfl

@[simp]
theorem countSubmits_append (a b : List Event) :
    countSubmits (a ++ b) = countSubmits a + countSubmits b := by
  simp [countSubmits, List.countP_append]

@[simp]
theorem countSubmits_cons (e : Event) (l : List Event) :
    countSubmits (e :: l) =
      countSubmits l + (match e with | .submit _ _ => 1 | _ => 0) := by
  cases e <;> simp [countSubmits, List.countP_cons]

/-- The chunk-polling loop performs no relay submissions. -/
theorem pollLoop_no_submits (polls : Nat → PollResp) (n : Nat) :
    ∀ i, countSubmits (pollLoop polls i n).2.2 = 0 := by
  induction n with
  | zero => intro i; rfl
  | succ n ih =>
    intro i
    simp only [pollLoop]
    cases polls i with
    | found => rfl
    | missing =>
      cases polls (i + 1) with
      | found => rfl
      | missing => by_cases h : n = 0 <;> simp [h, ih, pollLoop]
      | err m =>
        by_cases h : n = 0 <;> by_cases h2 : isPollRateLimit m = true <;>
          simp [h, h2, ih, pollLoop]
    | err m =>
      by_cases h : n = 0 <;> by_cases h2 : isPollRateLimit m = true <;>
        simp [h, h2, ih, pollLoop]

/-- Submission-count bound for the `transferSOL` retry loop: along the real
entry invariant `retries + fuel = maxRetries + 1`, one unit of fuel can
spend at most two relay calls (the loop-head call plus the nested
no-simulation retry inside the catch), except the last unit, where
`retries = maxRetries` rules the nested retry out. -/
theorem solRetryLoop_submits_le (cx : SolCtx) (env : Env) (fuel : Nat) :
    ∀ retries callIdx pollIdx, retries + fuel = maxRetries + 1 →
      countSubmits (solRetryLoop cx env fuel retries callIdx pollIdx).2 ≤ 2 * fuel - 1 := by
  induction fuel with
  | zero => intro r c p _; simp [solRetryLoop, countSubmits_nil]
  | succ fuel ih =>
    intro r c p hinv
    simp only [maxRetries] at hinv
    have hinv' : (r + 1) + fuel = maxRetries + 1 := by
      simp only [maxRetries]; omega
    simp only [solRetryLoop]
    cases env.relay c with
    | success sig => simp; omega
    | failure e =>
      by_cases htto : (isTransactionTooOld e && decide (r < maxRetries)) = true
      · simp only [htto, if_true]
        have := ih (r + 1) (c + 1) p hinv'
        simp [this]; omega
      · simp only [htto, if_false]
        by_cases hanf : isAccountNotFound e = true
        · simp only [hanf, if_true]
          by_cases hab : (extractAddress e.message == some cx.recipientAddress ||
              strContains e.message cx.recipientAddress ||
              strContains e.message cx.optsRecipient) = true
          · simp only [hab, if_true]
            by_cases hex : cx.accountExists = true
            · simp only [hex, if_true]
              by_cases hr : decide (r < maxRetries) = true
              · simp only [hr, if_true]
                cases env.relay (c + 1) with
                | success sig =>
                  simp
                  have : 1 ≤ fuel := by
                    simp only [decide_eq_true_eq, maxRetries] at hr; omega
                  omega
                | failure e' =>
                  have := ih (r + 1) (c + 2) p hinv'
                  simp only [decide_eq_true_eq, maxRetries] at hr
                  simp [this]; omega
              · simp only [hr, if_false]; simp; omega
            · simp only [hex, if_false]
              by_cases hr : decide (r < maxRetries) = true
              · simp only [hr, if_true]
                cases env.relay (c + 1) with
                | success sig =>
                  simp
                  have : 1 ≤ fuel := by
                    simp only [decide_eq_true_eq, maxRetries] at hr; omega
                  omega
                | failure e' =>
                  have := ih (r + 1) (c + 2) p hinv'
                  simp only [decide_eq_true_eq, maxRetries] at hr
                  simp [this]; omega
              · simp only [hr, if_false]; simp; omega
          · simp only [hab, if_false]
            by_cases hch : (isChunkAccountError e && (extractAddress e.message).isSome) = true
            · simp only [hch, if_true]
              by_cases hr : decide (r < maxRetries) = true
              · simp only [hr, if_true]
                have := ih (r + 1) (c + 1)
                  (pollLoop env.polls p (chunkBase cx.network * (r + 1) / 1000)).2.1 hinv'
                simp [this, pollLoop_no_submits]
                omega
              · simp only [hr, if_false]; simp; omega
            · simp only [hch, if_false]
              by_cases hr : decide (r < maxRetries) = true
              · simp only [hr, if_true]
                have := ih (r + 1) (c + 1) p hinv'
                simp [this]; omega
              · simp only [hr, if_false]; simp; omega
        · simp only [hanf, if_false]; simp; omega

/-- Submission-count bound for the `transferToken` retry loop: one relay
call per unit of fuel. -/
theorem tokenRetryLoop_submits_le (network : Network) (instrs : List Instr)
    (env : Env) (fuel : Nat) :
    ∀ retries callIdx,
      countSubmits (tokenRetryLoop network instrs env fuel retries callIdx).2 ≤ fuel := by
  induction fuel with
  | zero => intro r c; simp [tokenRetryLoop]
  | succ fuel ih =>
    intro r c
    simp only [tokenRetryLoop]
    cases env.relay c with
    | success sig => simp
    | failure e =>
      by_cases htto : (isTransactionTooOld e && decide (r < maxRetries)) = true
      · simp only [htto, if_true]
        have := ih (r + 1) (c + 1)
        simp only [countSubmits_cons, countSubmits_append]
        simp only [countSubmits] at this ⊢
        omega
      · simp only [htto, if_false]; simp

/-- `transferSOL` as a whole performs at most `2 * maxRetries + 1 = 5`
relay submissions. -/
theorem transferSOL_submits_le (W : WalletCtx) (chain : Chain)
    (network : Network) (opts : TransferOptions) (env : Env) :
    countSubmits (transferSOL W chain network opts env).2 ≤ 2 * maxRetries + 1 := by
  have hloop : ∀ cx, countSubmits (solRetryLoop cx env (maxRetries + 1) 0 0 0).2 ≤
      2 * maxRetries + 1 := by
    intro cx
    have := solRetryLoop_submits_le cx env (maxRetries + 1) 0 0 0 rfl
    simp only [maxRetries] at this ⊢
    omega
  have hbody : countSubmits (solBody W chain network opts env).2 ≤ 2 * maxRetries + 1 := by
    unfold solBody
    repeat' split
    all_goals simp [hloop]
  unfold transferSOL
  split
  · simp
  · split <;> (dsimp only [] ; split <;> simp [hbody])

/-- `transferToken` as a whole performs at most `maxRetries + 1 = 3`
relay submissions. -/
theorem transferToken_submits_le (W : WalletCtx) (chain : Chain)
    (network : Network) (opts : TransferOptions) (env : Env) :
    countSubmits (transferToken W chain network opts env).2 ≤ maxRetries + 1 := by
  have hloop : ∀ instrs, countSubmits (tokenRetryLoop network instrs env (maxRetries + 1) 0 0).2 ≤
      maxRetries + 1 := fun instrs => tokenRetryLoop_submits_le network instrs env (maxRetries + 1) 0 0
  have hbody : countSubmits (tokenBody W chain network opts env).2 ≤ maxRetries + 1 := by
    unfold tokenBody
    repeat' split
    all_goals simp [hloop]
  unfold transferToken
  repeat' split
  all_goals simp [hbody]


@[simp]
theorem countBuilds_nil : countBuilds [] = 0 := rfl

@[simp]
theorem countBuilds_cons (e : Event) (l : List Event) :
    countBuilds (e :: l) =
      countBuilds l + (match e with | .build _ => 1 | _ => 0) := by
  cases e <;> simp [countBuilds, List.countP_cons]

@[simp]
theorem countBuilds_append (a b : List Event) :
    countBuilds (a ++ b) = countBuilds a + countBuilds b := by
  simp [countBuilds, List.countP_append]

@[simp]
theorem countNet_nil : countNet [] = 0 := rfl

@[simp]
theorem countNet_cons (e : Event) (l : List Event) :
    countNet (e :: l) = countNet l + (if Event.isNet e then 1 else 0) := by
  simp [countNet, List.countP_cons]

@[simp]
theorem countNet_append (a b : List Event) :
    countNet (a ++ b) = countNet a + countNet b := by
  simp [countNet, List.countP_append]

@[simp]
theorem submitLists_nil : submitLists [] = [] := rfl

@[simp]
theorem submitLists_cons (e : Event) (l : List Event) :
    submitLists (e :: l) =
      (match e with | .submit _ li => [li] | _ => []) ++ submitLists l := by
  cases e <;> simp [submitLists, List.filterMap_cons]

@[simp]
theorem submitLists_append (a b : List Event) :
    submitLists (a ++ b) = submitLists a ++ submitLists b := by
  simp [submitLists, List.filterMap_append]

@[simp]
theorem foldFlag_append (a b : List Event) (b0 : Bool) :
    foldFlag (a ++ b) b0 = foldFlag b (foldFlag a b0) := by
  simp [foldFlag, List.foldl_append]

@[simp]
theorem foldFlag_setFlag_last (l : List Event) (b b0 : Bool) :
    foldFlag (l ++ [Event.setFlag b]) b0 = b := by
  simp [foldFlag, List.foldl_append]

/-- All chunk-polling events are account reads at the two commitment
levels or 1s/2s pauses. -/
theorem pollLoop_evOK (polls : Nat -> PollResp) (n : Nat) :
    forall i, ((pollLoop polls i n).2.2.all pollEvOK) = true := by
  induction n with
  | zero => intro i; rfl
  | succ n ih =>
    intro i
    simp only [pollLoop]
    cases polls i with
    | found => rfl
    | missing =>
      cases polls (i + 1) with
      | found => rfl
      | missing => by_cases h : n = 0 <;> simp [h, ih, pollLoop, pollEvOK]
      | err m =>
        by_cases h : n = 0 <;> by_cases h2 : isPollRateLimit m = true <;>
          simp [h, h2, ih, pollLoop, pollEvOK]
    | err m =>
      by_cases h : n = 0 <;> by_cases h2 : isPollRateLimit m = true <;>
        simp [h, h2, ih, pollLoop, pollEvOK]

/-- Chunk-polling events also satisfy the retry-loop event discipline. -/
theorem pollLoop_evOK_sol (polls : Nat -> PollResp) (n : Nat) :
    forall i, ((pollLoop polls i n).2.2.all solLoopEvOK) = true := by
  induction n with
  | zero => intro i; rfl
  | succ n ih =>
    intro i
    simp only [pollLoop]
    cases polls i with
    | found => rfl
    | missing =>
      cases polls (i + 1) with
      | found => rfl
      | missing => by_cases h : n = 0 <;> simp [h, ih, pollLoop, solLoopEvOK]
      | err m =>
        by_cases h : n = 0 <;> by_cases h2 : isPollRateLimit m = true <;>
          simp [h, h2, ih, pollLoop, solLoopEvOK]
    | err m =>
      by_cases h : n = 0 <;> by_cases h2 : isPollRateLimit m = true <;>
        simp [h, h2, ih, pollLoop, solLoopEvOK]

/-- Event discipline of the `transferSOL` retry loop: every submission
carries the single pre-built instruction list `[Instr.solTransfer]`, and
no instruction construction or flag write happens inside the loop. -/
theorem solRetryLoop_evOK (cx : SolCtx) (env : Env) (fuel : Nat) :
    forall retries callIdx pollIdx,
      ((solRetryLoop cx env fuel retries callIdx pollIdx).2.all solLoopEvOK) = true := by
  induction fuel with
  | zero => intro r c p; rfl
  | succ fuel ih =>
    intro r c p
    simp only [solRetryLoop]
    cases env.relay c with
    | success sig => rfl
    | failure e =>
      repeat' split
      all_goals simp [solLoopEvOK, ih, pollLoop_evOK_sol]

/-- Event discipline of the `transferToken` retry loop: every submission
carries the instruction list built before the loop. -/
theorem tokenRetryLoop_evOK (network : Network) (instrs : List Instr)
    (env : Env) (fuel : Nat) :
    forall retries callIdx,
      ((tokenRetryLoop network instrs env fuel retries callIdx).2.all
        (tokenLoopEvOK instrs)) = true := by
  induction fuel with
  | zero => intro r c; rfl
  | succ fuel ih =>
    intro r c
    simp only [tokenRetryLoop]
    cases env.relay c with
    | success sig => simp [tokenLoopEvOK]
    | failure e =>
      repeat' split
      all_goals simp [tokenLoopEvOK, ih]

/-- The trace of `transferSOL` is empty (pre-`try` throw) or brackets the
`try`-body trace between the `setIsTransferring(true)` write and the
`finally` `setIsTransferring(false)` write. -/
theorem transferSOL_trace_cases (W : WalletCtx) (chain : Chain)
    (network : Network) (opts : TransferOptions) (env : Env) :
    (transferSOL W chain network opts env).2 = [] ∨
    (transferSOL W chain network opts env).2 =
      Event.setFlag true :: ((solBody W chain network opts env).2 ++ [Event.setFlag false]) := by
  unfold transferSOL
  split
  . exact Or.inl rfl
  . split <;> (dsimp only [] ; split)
    all_goals first | exact Or.inl rfl | exact Or.inr rfl

/-- Same bracketing for `transferToken`. -/
theorem transferToken_trace_cases (W : WalletCtx) (chain : Chain)
    (network : Network) (opts : TransferOptions) (env : Env) :
    (transferToken W chain network opts env).2 = [] ∨
    (transferToken W chain network opts env).2 =
      Event.setFlag true :: ((tokenBody W chain network opts env).2 ++ [Event.setFlag false]) := by
  unfold transferToken
  repeat' split
  all_goals simp

/-- The `try`-body trace of `transferSOL` is empty (validation throw
before the account pre-check), the pre-check prefix alone (sender-mismatch
or token-mint throw), or that prefix followed by the blockhash refresh and
the retry loop. -/
theorem solBody_trace_cases (W : WalletCtx) (chain : Chain) (network : Network)
    (opts : TransferOptions) (env : Env) :
    (solBody W chain network opts env).2 = [] ∨
    (solBody W chain network opts env).2 =
      [Event.netAcctInfo, Event.build Instr.solTransfer] ∨
    ∃ cx : SolCtx, (solBody W chain network opts env).2 =
      Event.netAcctInfo :: Event.build Instr.solTransfer :: Event.refreshBlockhash ::
        (solRetryLoop cx env (maxRetries + 1) 0 0 0).2 := by
  unfold solBody
  repeat' split
  all_goals
    first
      | exact Or.inl rfl
      | exact Or.inr (Or.inl rfl)
      | exact Or.inr (Or.inr (Exists.intro _ rfl))

/-- The `try`-body trace of `transferToken`: a validation throw, the
sender-account check throw, or the full pipeline with the instruction list
determined by the recipient-account response. -/
theorem tokenBody_trace_cases (W : WalletCtx) (chain : Chain) (network : Network)
    (opts : TransferOptions) (env : Env) :
    (tokenBody W chain network opts env).2 = [] ∨
    (tokenBody W chain network opts env).2 = [Event.netTokenAcct "sender"] ∨
    (tokenBody W chain network opts env).2 =
      Event.netTokenAcct "sender" :: Event.netTokenAcct "recipient" ::
        Event.build Instr.tokenTransfer :: Event.refreshBlockhash ::
        (tokenRetryLoop network [Instr.tokenTransfer] env (maxRetries + 1) 0 0).2 ∨
    (tokenBody W chain network opts env).2 =
      Event.netTokenAcct "sender" :: Event.netTokenAcct "recipient" ::
        Event.build Instr.createATA :: Event.build Instr.tokenTransfer ::
        Event.refreshBlockhash ::
        (tokenRetryLoop network [Instr.createATA, Instr.tokenTransfer] env (maxRetries + 1) 0 0).2 := by
  unfold tokenBody
  repeat' split
  all_goals try cases env.recipientAcct
  all_goals
    first
      | exact Or.inl rfl
      | exact Or.inr (Or.inl rfl)
      | exact Or.inr (Or.inr (Or.inl rfl))
      | exact Or.inr (Or.inr (Or.inr rfl))

/-- The `transferSOL` retry loop constructs no instruction. -/
theorem solRetryLoop_no_builds (cx : SolCtx) (env : Env)
    (fuel retries callIdx pollIdx : Nat) :
    countBuilds (solRetryLoop cx env fuel retries callIdx pollIdx).2 = 0 := by
  have h := solRetryLoop_evOK cx env fuel retries callIdx pollIdx
  rw [List.all_eq_true] at h
  unfold countBuilds
  rw [List.countP_eq_zero]
  intro e he
  have := h e he
  cases e <;> simp_all [solLoopEvOK]

/-- Every instruction list the `transferSOL` retry loop submits is the
single pre-built list. -/
theorem solRetryLoop_submitLists (cx : SolCtx) (env : Env)
    (fuel retries callIdx pollIdx : Nat) :
    ((submitLists (solRetryLoop cx env fuel retries callIdx pollIdx).2).all
      (fun l => l == [Instr.solTransfer])) = true := by
  have h := solRetryLoop_evOK cx env fuel retries callIdx pollIdx
  rw [List.all_eq_true] at h
  rw [List.all_eq_true]
  intro l hl
  rcases List.mem_filterMap.mp hl with ⟨e, he, hfe⟩
  have := h e he
  cases e <;> simp_all [solLoopEvOK]

/-- The `transferToken` retry loop constructs no instruction. -/
theorem tokenRetryLoop_no_builds (network : Network) (instrs : List Instr)
    (env : Env) (fuel retries callIdx : Nat) :
    countBuilds (tokenRetryLoop network instrs env fuel retries callIdx).2 = 0 := by
  have h := tokenRetryLoop_evOK network instrs env fuel retries callIdx
  rw [List.all_eq_true] at h
  unfold countBuilds
  rw [List.countP_eq_zero]
  intro e he
  have := h e he
  cases e <;> simp_all [tokenLoopEvOK]

/-- Every instruction list the `transferToken` retry loop submits is the
list built before the loop. -/
theorem tokenRetryLoop_submitLists (network : Network) (instrs : List Instr)
    (env : Env) (fuel retries callIdx : Nat) :
    ((submitLists (tokenRetryLoop network instrs env fuel retries callIdx).2).all
      (fun l => l == instrs)) = true := by
  have h := tokenRetryLoop_evOK network instrs env fuel retries callIdx
  rw [List.all_eq_true] at h
  rw [List.all_eq_true]
  intro l hl
  rcases List.mem_filterMap.mp hl with ⟨e, he, hfe⟩
  have := h e he
  cases e <;> simp_all [tokenLoopEvOK]

/-- A list whose elements all equal a fixed value has all elements
equal. -/
theorem allSame_of_all_eq (ls : List (List Instr)) (x : List Instr)
    (h : (ls.all (fun y => y == x)) = true) : allSame ls = true := by
  cases ls with
  | nil => rfl
  | cons a as =>
    simp only [List.all_cons, Bool.and_eq_true, beq_iff_eq] at h
    unfold allSame
    rw [List.all_eq_true]
    intro y hy
    rw [List.all_eq_true] at *
    have := h.2 y hy
    simp_all

/-! ## Claims -/

/-- C1, counterexample: the claim caps submissions at `maxRetries + 1 = 3`
for every error sequence, but when every relay response is an
account-not-found error naming the recipient (an ACCOUNT_NOT_INDEXED-class
error) while the recipient pre-check succeeded, `transferSOL` makes five
`signAndSendTransaction` calls: the loop-head call plus the nested
no-simulation retry inside the catch, in each of the first two rounds,
and the loop-head call of the final round. -/
theorem C1_counterexample :
    ¬ countSubmits (transferSOL wOkF chainF Network.devnet optsOkF envAcctF).2 ≤
      maxRetries + 1 := by decide

/-- C1 (amended): for every wallet state, address oracle, network, request
and environment — hence for every sequence of errors thrown by the
relay — `transferSOL` makes at most `2 * maxRetries + 1 = 5` calls to
`signAndSendTransaction` (the account-not-found recovery path adds one
nested call per retry round) and `transferToken` at most
`maxRetries + 1 = 3`; the retry loops always terminate, the model being a
total function recursing on the fuel `maxRetries + 1 - retries`. -/
theorem C1_submission_budget (W : WalletCtx) (chain : Chain)
    (network : Network) (opts : TransferOptions) (env : Env) :
    countSubmits (transferSOL W chain network opts env).2 ≤ 2 * maxRetries + 1 ∧
    countSubmits (transferToken W chain network opts env).2 ≤ maxRetries + 1 :=
  ⟨transferSOL_submits_le W chain network opts env,
   transferToken_submits_le W chain network opts env⟩

/-- C2, counterexample: in a run whose first submission fails with a
stale-transaction error and whose second succeeds, there are two
submission attempts but the transfer instruction is constructed only
once — construction count does not equal attempt count, and the one
instruction object is reused across the retry. -/
theorem C2_counterexample :
    countSubmits (transferSOL wOkF chainF Network.devnet optsOkF envStaleF).2 = 2 ∧
    countBuilds (transferSOL wOkF chainF Network.devnet optsOkF envStaleF).2 = 1 := by
  decide

/-- C2 (amended): instruction construction happens at most once per
`transferSOL` call — exactly once when any submission happens — before
the retry loop, and every submission attempt carries that same single
instruction list `[Instr.solTransfer]`; likewise `transferToken` submits
the same pre-built instruction list on every attempt. -/
theorem C2_instructions_reused (W : WalletCtx) (chain : Chain)
    (network : Network) (opts : TransferOptions) (env : Env) :
    ((submitLists (transferSOL W chain network opts env).2).all
      (fun l => l == [Instr.solTransfer])) = true ∧
    countBuilds (transferSOL W chain network opts env).2 ≤ 1 ∧
    (1 ≤ countSubmits (transferSOL W chain network opts env).2 →
      countBuilds (transferSOL W chain network opts env).2 = 1) ∧
    allSame (submitLists (transferToken W chain network opts env).2) = true := by
  have hsol := transferSOL_trace_cases W chain network opts env
  have hbody := solBody_trace_cases W chain network opts env
  have htok := transferToken_trace_cases W chain network opts env
  have htbody := tokenBody_trace_cases W chain network opts env
  refine ⟨?_, ?_, ?_, ?_⟩
  . rcases hsol with h | h <;> rw [h]
    . rfl
    . rcases hbody with hb | hb | ⟨cx, hb⟩ <;> rw [hb] <;>
        simp [solRetryLoop_submitLists]
  . rcases hsol with h | h <;> rw [h]
    . simp
    . rcases hbody with hb | hb | ⟨cx, hb⟩ <;> rw [hb] <;>
        simp [solRetryLoop_no_builds]
  . intro hge
    rcases hsol with h | h
    . rw [h] at hge; simp at hge
    . rcases hbody with hb | hb | ⟨cx, hb⟩
      . rw [h, hb] at hge; simp at hge
      . rw [h, hb] at hge; simp at hge
      . rw [h, hb]; simp [solRetryLoop_no_builds]
  . rcases htok with h | h
    . rw [h]; rfl
    . rcases htbody with hb | hb | hb | hb <;> rw [h, hb]
      . simp [allSame]
      . simp [allSame]
      . simp only [submitLists_cons, submitLists_append, submitLists_nil,
          List.nil_append, List.append_nil]
        exact allSame_of_all_eq _ _ (tokenRetryLoop_submitLists _ _ _ _ _ _)
      . simp only [submitLists_cons, submitLists_append, submitLists_nil,
          List.nil_append, List.append_nil]
        exact allSame_of_all_eq _ _ (tokenRetryLoop_submitLists _ _ _ _ _ _)

/-- C2 witness: on the stale-then-success run, the theorem's conditional
part applies — one submission happened, so construction count is exactly
one. -/
theorem C2_instructions_reused_witness :
    countBuilds (transferSOL wOkF chainF Network.devnet optsOkF envStaleF).2 = 1 :=
  (C2_instructions_reused wOkF chainF Network.devnet optsOkF envStaleF).2.2.1 (by decide)

/-- C3, counterexample: with the known devnet USDC mint as recipient and a
valid amount, `transferSOL` does reject with the token-mint error, but
only after the recipient-account `getAccountInfo` RPC call (the trace
contains a network call), contradicting "reject before any network call";
and with the same mint recipient and amount 0, the amount error fires
first, contradicting the claimed order (mint check before amount
check). -/
theorem C3_counterexample :
    ((transferSOL wOkF chainF Network.devnet optsMintF benignEnvF).1 =
      Except.error (mkErr ("Invalid recipient address: \"4zMMC9srt5Ri5X14GAgXhaHii3GnPAEERYPJgZJDncDU\" is a token mint address, not a wallet address. You cannot send SOL to a token mint. Please enter a valid Solana wallet address (starts with a letter, 32-44 characters).")) ∧
     1 ≤ countNet (transferSOL wOkF chainF Network.devnet optsMintF benignEnvF).2) ∧
    (transferSOL wOkF chainF Network.devnet optsMint0F benignEnvF).1 =
      Except.error (mkErr "Amount must be greater than 0") :=
  ⟨⟨rfl, by decide⟩, rfl⟩

/-- C3 (amended): `transferSOL`'s precondition checks short-circuit in
source order — sender resolvable (after one re-resolution attempt),
recipient non-empty after trimming, recipient parses, recipient on-curve,
recipient distinct from the sender, amount positive and finite — and each
of these rejects before any network call (empty or flag-only trace); the
known-token-mint check, however, runs last, after the recipient-account
existence RPC read and the instruction construction (one network call in
the trace), though still before any submission. -/
theorem C3_validation_order (W : WalletCtx) (chain : Chain)
    (network : Network) (opts : TransferOptions) (env : Env)
    (h1 : W.isConnected = true) :
    ((W.renderAddr.isSome && W.renderPk.isSome) = false →
      (W.retryAddr.isNone || W.retryPk.isNone) = true →
      transferSOL W chain network opts env =
        (.error (mkErr ("Passkey Wallet (smart wallet) address not available. " ++
          "Please ensure your wallet is fully connected and try again. " ++
          "If the issue persists, try disconnecting and reconnecting your wallet.")), []))
    ∧
    (∀ A, W.renderAddr = some A → W.renderPk = some A →
      ((jsTrim opts.recipient == "") = true →
        transferSOL W chain network opts env =
          (.error (mkErr "Recipient address is required"),
            [Event.setFlag true, Event.setFlag false]))
      ∧
      (∀ m, (jsTrim opts.recipient == "") = false →
        chain.parse (jsTrim opts.recipient) = .error m →
        transferSOL W chain network opts env =
          (.error (mkErr ("Invalid recipient address: " ++ opts.recipient ++ ". " ++ m)),
            [Event.setFlag true, Event.setFlag false]))
      ∧
      (∀ r, (jsTrim opts.recipient == "") = false →
        chain.parse (jsTrim opts.recipient) = .ok r →
        ((chain.isOnCurve r = false →
          transferSOL W chain network opts env =
            (.error (mkErr "Recipient address is not a valid on-curve Solana address. SOL can only be sent to on-curve addresses."),
              [Event.setFlag true, Event.setFlag false]))
         ∧
         (chain.isOnCurve r = true →
          ((r = A →
            transferSOL W chain network opts env =
              (.error (mkErr "Cannot send SOL to your own address. Please use a different recipient address."),
                [Event.setFlag true, Event.setFlag false]))
           ∧
           (r ≠ A →
            (((decide (opts.amount ≤ 0) || !opts.amountFinite) = true →
              transferSOL W chain network opts env =
                (.error (mkErr "Amount must be greater than 0"),
                  [Event.setFlag true, Event.setFlag false]))
             ∧
             ((decide (opts.amount ≤ 0) || !opts.amountFinite) = false →
              (r == USDC_MINT_MAINNET || r == USDC_MINT_DEVNET) = true →
              transferSOL W chain network opts env =
                (.error (mkErr ("Invalid recipient address: \"" ++ r ++
                  "\" is a token mint address, not a wallet address. " ++
                  "You cannot send SOL to a token mint. Please enter a valid Solana wallet address " ++
                  "(starts with a letter, 32-44 characters).")),
                  [Event.setFlag true, Event.netAcctInfo, Event.build Instr.solTransfer,
                    Event.setFlag false]))))))))) := by
  constructor
  . intro hna hretry
    unfold transferSOL
    simp only [h1, Bool.not_true, Bool.false_eq_true, if_false, hna, if_true]
    rcases Bool.or_eq_true_iff.mp hretry with h | h <;>
      simp_all [Option.isNone_iff_eq_none]
  . intro A h2 h3
    refine ⟨?_, ?_, ?_⟩
    . intro hempty
      unfold transferSOL solBody
      simp [h1, h2, h3, hempty]
    . intro m hne hparse
      unfold transferSOL solBody
      simp [h1, h2, h3, hne, hparse]
    . intro r hne hparse
      constructor
      . intro hcurve
        unfold transferSOL solBody
        simp [h1, h2, h3, hne, hparse, hcurve]
      . intro hcurve
        constructor
        . intro hself
          subst hself
          unfold transferSOL solBody
          simp [h1, h2, h3, hne, hparse, hcurve]
        . intro hself
          constructor
          . intro hamt
            unfold transferSOL solBody
            simp [h1, h2, h3, hne, hparse, hcurve, hself, hamt]
          . intro hamt hmint
            unfold transferSOL solBody
            simp [h1, h2, h3, hne, hparse, hcurve, hself, hamt, hmint]

/-- C3 witness: on the concrete zero-amount mint-recipient request, the
amount check (not the mint check) fires, with a flag-only trace. -/
theorem C3_validation_order_witness :
    transferSOL wOkF chainF Network.devnet optsMint0F benignEnvF =
      (.error (mkErr "Amount must be greater than 0"),
       [Event.setFlag true, Event.setFlag false]) := by
  have h := C3_validation_order wOkF chainF Network.devnet optsMint0F benignEnvF rfl
  have hp := (h.2 senderAddrF rfl rfl).2.2
    "4zMMC9srt5Ri5X14GAgXhaHii3GnPAEERYPJgZJDncDU" (by decide) rfl
  exact ((hp.2 rfl).2 (by decide)).1 (by decide)

/-- C4, counterexample: a fungible-token transfer whose recipient is the
sender's own smart-wallet address does not fail with a self-transfer
error — `transferToken` has no self-transfer check — and it performs
network calls and a submission, returning the relay's signature. -/
theorem C4_counterexample :
    (transferToken wOkF chainF Network.devnet optsSelfF benignEnvF).1 = Except.ok "sigA" ∧
    countSubmits (transferToken wOkF chainF Network.devnet optsSelfF benignEnvF).2 = 1 ∧
    1 ≤ countNet (transferToken wOkF chainF Network.devnet optsSelfF benignEnvF).2 :=
  ⟨rfl, by decide, by decide⟩

/-- C4 (amended): for native transfers only, a recipient address equal to
the sender's smart-wallet address makes `transferSOL` fail with the
self-transfer error, with zero network calls and zero submissions;
`transferToken` performs no such check. -/
theorem C4_self_transfer (W : WalletCtx) (chain : Chain) (network : Network)
    (opts : TransferOptions) (env : Env) (A : String)
    (h1 : W.isConnected = true)
    (h2 : W.renderAddr = some A)
    (h3 : W.renderPk = some A)
    (hne : (jsTrim opts.recipient == "") = false)
    (hparse : chain.parse (jsTrim opts.recipient) = .ok A)
    (hcurve : chain.isOnCurve A = true) :
    transferSOL W chain network opts env =
      (.error (mkErr "Cannot send SOL to your own address. Please use a different recipient address."),
       [Event.setFlag true, Event.setFlag false]) ∧
    countNet (transferSOL W chain network opts env).2 = 0 ∧
    countSubmits (transferSOL W chain network opts env).2 = 0 := by
  have heq : transferSOL W chain network opts env =
      (.error (mkErr "Cannot send SOL to your own address. Please use a different recipient address."),
       [Event.setFlag true, Event.setFlag false]) := by
    unfold transferSOL solBody
    simp [h1, h2, h3, hne, hparse, hcurve]
  refine ⟨heq, ?_, ?_⟩ <;> rw [heq] <;> rfl

/-- C4 witness: the concrete self-transfer request rejected by
`transferSOL` with no network traffic. -/
theorem C4_self_transfer_witness :
    transferSOL wOkF chainF Network.devnet optsSelfF benignEnvF =
      (.error (mkErr "Cannot send SOL to your own address. Please use a different recipient address."),
       [Event.setFlag true, Event.setFlag false]) :=
  (C4_self_transfer wOkF chainF Network.devnet optsSelfF benignEnvF senderAddrF
    rfl rfl rfl (by decide) rfl rfl).1

/-- Iteration bound for the chunk-polling loop, counted by its
`"finalized"`-level reads (one per iteration). -/
theorem pollLoop_count_le (polls : Nat -> PollResp) (n : Nat) :
    ∀ i, countFinalizedPolls (pollLoop polls i n).2.2 ≤ n := by
  induction n with
  | zero => intro i; simp [pollLoop, countFinalizedPolls]
  | succ n ih =>
    intro i
    simp only [pollLoop]
    cases polls i with
    | found => simp [countFinalizedPolls, List.countP_cons]
    | missing =>
      cases polls (i + 1) with
      | found => simp [countFinalizedPolls, List.countP_cons]
      | missing =>
        by_cases h : n = 0 <;>
          simp [h, countFinalizedPolls, List.countP_cons, List.countP_append, pollLoop] <;>
          have := ih (i + 2) <;>
          simp [countFinalizedPolls] at this <;> omega
      | err m =>
        by_cases h : n = 0 <;> by_cases h2 : isPollRateLimit m = true <;>
          simp [h, h2, countFinalizedPolls, List.countP_cons, List.countP_append, pollLoop] <;>
          have := ih (i + 2) <;>
          simp [countFinalizedPolls] at this <;> omega
    | err m =>
      by_cases h : n = 0 <;> by_cases h2 : isPollRateLimit m = true <;>
        simp [h, h2, countFinalizedPolls, List.countP_cons, List.countP_append, pollLoop] <;>
        have := ih (i + 1) <;>
        simp [countFinalizedPolls] at this <;> omega

/-- When the chunk account is never seen, the polling loop runs to its
full iteration cap: neither a `null` response nor a thrown (possibly
rate-limited) response ends it early. -/
theorem pollLoop_count_exhaust (polls : Nat -> PollResp) (n : Nat) :
    ∀ i, (pollLoop polls i n).1 = false →
      countFinalizedPolls (pollLoop polls i n).2.2 = n := by
  induction n with
  | zero => intro i _; rfl
  | succ n ih =>
    intro i h
    simp only [pollLoop] at h ⊢
    cases hp : polls i with
    | found => rw [hp] at h; simp at h
    | missing =>
      rw [hp] at h
      cases hq : polls (i + 1) with
      | found => rw [hq] at h; simp at h
      | missing =>
        rw [hq] at h
        by_cases hn : n = 0
        . subst hn
          simp [countFinalizedPolls, List.countP_cons, List.countP_append, pollLoop]
        . have hrec : (pollLoop polls (i + 2) n).1 = false := by simpa using h
          have hcnt := ih (i + 2) hrec
          simp only [countFinalizedPolls] at hcnt
          simp [hn, countFinalizedPolls, List.countP_cons, List.countP_append]
          try omega
      | err m =>
        rw [hq] at h
        by_cases hn : n = 0
        . subst hn
          by_cases h2 : isPollRateLimit m = true <;>
            simp [h2, countFinalizedPolls, List.countP_cons, List.countP_append, pollLoop]
        . have hrec : (pollLoop polls (i + 2) n).1 = false := by simpa using h
          have hcnt := ih (i + 2) hrec
          simp only [countFinalizedPolls] at hcnt
          by_cases h2 : isPollRateLimit m = true <;>
            (simp [h2, hn, countFinalizedPolls, List.countP_cons, List.countP_append]; try omega)
    | err m =>
      rw [hp] at h
      by_cases hn : n = 0
      . subst hn
        by_cases h2 : isPollRateLimit m = true <;>
          simp [h2, countFinalizedPolls, List.countP_cons, List.countP_append, pollLoop]
      . have hrec : (pollLoop polls (i + 1) n).1 = false := by simpa using h
        have hcnt := ih (i + 1) hrec
        simp only [countFinalizedPolls] at hcnt
        by_cases h2 : isPollRateLimit m = true <;>
          (simp [h2, hn, countFinalizedPolls, List.countP_cons, List.countP_append]; try omega)

/-- Every polling iteration starts with a `"finalized"`-level read. -/
theorem pollLoop_head_finalized (polls : Nat -> PollResp) (n : Nat) (i : Nat)
    (hn : n ≠ 0) :
    (pollLoop polls i n).2.2.head? = some (Event.poll "finalized") := by
  cases n with
  | zero => exact absurd rfl hn
  | succ n =>
    simp only [pollLoop]
    cases polls i with
    | found => rfl
    | missing => cases polls (i + 1) <;> simp
    | err m => simp

/-- C5: chunk-account recovery.  (1) The poll loop performs at most
`maxPollAttempts` iterations, where the cap passed by the retry loop is
`chunkBase network * attempt / 1000` with a 15s devnet / 5s mainnet
ceiling; (2) when the account is never found the loop always runs to the
full cap — a rate-limited response only inserts a pause, it neither ends
polling nor counts as a final failure; (3) all poll events are account
reads at the `"finalized"`/`"confirmed"` commitment levels or fixed
1-second inter-iteration / 2-second rate-limit pauses; (4) each iteration
reads `"finalized"` first; (5) on a chunk-classified account-not-found
error with retries remaining, the retry loop emits the poll trace with
exactly that cap and then — regardless of whether polling found the
account — a single additional buffer wait of `chunkBase network`
(15s devnet / 5s mainnet) before the next submission round. -/
theorem C5_chunk_recovery :
    (∀ polls i n, countFinalizedPolls (pollLoop polls i n).2.2 ≤ n) ∧
    (∀ polls i n, (pollLoop polls i n).1 = false →
      countFinalizedPolls (pollLoop polls i n).2.2 = n) ∧
    (∀ polls i n, ((pollLoop polls i n).2.2.all pollEvOK) = true) ∧
    (∀ polls i n, n ≠ 0 →
      (pollLoop polls i n).2.2.head? = some (Event.poll "finalized")) ∧
    (∀ cx env fuel retries callIdx pollIdx e,
      env.relay callIdx = .failure e →
      isTransactionTooOld e = false →
      isAccountNotFound e = true →
      (extractAddress e.message == some cx.recipientAddress ||
        strContains e.message cx.recipientAddress ||
        strContains e.message cx.optsRecipient) = false →
      isChunkAccountError e = true →
      (extractAddress e.message).isSome = true →
      retries < maxRetries →
      ∃ rest,
        (solRetryLoop cx env (fuel + 1) retries callIdx pollIdx).2 =
          Event.submit (if cx.accountExists then some cx.network.str else none)
              [Instr.solTransfer] ::
            ((pollLoop env.polls pollIdx (chunkBase cx.network * (retries + 1) / 1000)).2.2 ++
              (Event.wait (chunkBase cx.network) :: rest))) := by
  refine ⟨?_, ?_, ?_, ?_, ?_⟩
  . intro polls i n; exact pollLoop_count_le polls n i
  . intro polls i n h; exact pollLoop_count_exhaust polls n i h
  . intro polls i n; exact pollLoop_evOK polls n i
  . intro polls i n hn; exact pollLoop_head_finalized polls n i hn
  . intro cx env fuel retries c p e hrel htto hanf hab hch hsome hr
    have hrd : decide (retries < maxRetries) = true := decide_eq_true hr
    refine ⟨(solRetryLoop cx env fuel (retries + 1) (c + 1)
      (pollLoop env.polls p (chunkBase cx.network * (retries + 1) / 1000)).2.1).2, ?_⟩
    simp only [solRetryLoop]
    rw [hrel]
    simp [htto, hanf, hab, hch, hsome, hrd]

/-- C5 witness: with an account that never appears, a first-retry devnet
poll (cap 15) runs all 15 iterations. -/
theorem C5_chunk_recovery_witness :
    countFinalizedPolls (pollLoop benignEnvF.polls 0 15).2.2 = 15 :=
  C5_chunk_recovery.2.1 benignEnvF.polls 0 15 (by decide)

@[simp]
theorem foldFlag_nil (b : Bool) : foldFlag [] b = b := rfl

@[simp]
theorem foldFlag_cons (e : Event) (l : List Event) (b : Bool) :
    foldFlag (e :: l) b =
      foldFlag l (match e with | .setFlag c => c | _ => b) := by
  cases e <;> simp [foldFlag]

/-- `balanceLtRequired` agrees with the rational comparison
`balance < amount * 10^6` of the source. -/
theorem balanceLtRequired_spec (b : Nat) (q : ℚ) :
    balanceLtRequired b q = true ↔ ((b : ℚ) < q * 1000000) := by
  unfold balanceLtRequired
  rw [decide_eq_true_iff]
  have hden : (0 : ℚ) < (q.den : ℚ) := by exact_mod_cast q.den_pos
  have key : q * 1000000 * q.den = (q.num : ℚ) * 1000000 := by
    rw [mul_right_comm, Rat.mul_den_eq_num]
  constructor
  . intro h
    have h2 : ((b : ℚ)) * q.den < (q.num : ℚ) * 1000000 := by exact_mod_cast h
    rw [← key] at h2
    exact lt_of_mul_lt_mul_right (le_of_lt hden |> fun _ => h2) (le_of_lt hden)
  . intro h
    have h2 : (b : ℚ) * q.den < q * 1000000 * q.den := (mul_lt_mul_right hden).mpr h
    rw [key] at h2
    exact_mod_cast h2

/-- C6: when a submission error is stale-classified (message contains
`TransactionTooOld`, `Transaction is too old`, `0x1783` or `6019`, or
`error.code === 6019` — the definition of `isTransactionTooOld`) and
retries remain, both retry loops refresh the blockhash (the
`/api/blockhash` fetch, `Event.refreshBlockhash`) and wait 1000ms —
or 3000ms on devnet / 2000ms on mainnet when the error is
CreateChunk-phase or the relay reports its own retries exhausted — then
resubmit; when the second attempt succeeds, the returned result is
exactly that attempt's signature. -/
theorem C6_stale_retry :
    (∀ cx env fuel retries callIdx pollIdx e sig,
      env.relay callIdx = .failure e →
      isTransactionTooOld e = true →
      retries < maxRetries →
      env.relay (callIdx + 1) = .success sig →
      solRetryLoop cx env (fuel + 2) retries callIdx pollIdx =
        (.ok sig,
         [Event.submit (if cx.accountExists then some cx.network.str else none)
            [Instr.solTransfer],
          Event.refreshBlockhash,
          Event.wait (if isCreateChunkError e || paymasterRetried e
            then (match cx.network with | .devnet => 3000 | .mainnet => 2000)
            else 1000),
          Event.submit (if cx.accountExists then some cx.network.str else none)
            [Instr.solTransfer]])) ∧
    (∀ network instrs env fuel retries callIdx e sig,
      env.relay callIdx = .failure e →
      isTransactionTooOld e = true →
      retries < maxRetries →
      env.relay (callIdx + 1) = .success sig →
      tokenRetryLoop network instrs env (fuel + 2) retries callIdx =
        (.ok sig,
         [Event.submit (some network.str) instrs,
          Event.refreshBlockhash,
          Event.wait (if isCreateChunkError e || paymasterRetried e
            then (match network with | .devnet => 3000 | .mainnet => 2000)
            else 1000),
          Event.submit (some network.str) instrs])) := by
  constructor
  . intro cx env fuel retries c p e sig hrel htto hr hsucc
    have hrd : decide (retries < maxRetries) = true := decide_eq_true hr
    simp only [solRetryLoop]
    rw [hrel]
    simp only [htto, hrd, Bool.and_self, if_true]
    rw [hsucc]
  . intro network instrs env fuel retries c e sig hrel htto hr hsucc
    have hrd : decide (retries < maxRetries) = true := decide_eq_true hr
    simp only [tokenRetryLoop]
    rw [hrel]
    simp only [htto, hrd, Bool.and_self, if_true]
    rw [hsucc]

/-- C6 witness: a concrete stale-then-success devnet run, plain
1000ms wait, result is the second attempt's signature. -/
theorem C6_stale_retry_witness :
    solRetryLoop solCtxF envStaleF 3 0 0 0 =
      (.ok "sigB",
       [Event.submit (some "devnet") [Instr.solTransfer],
        Event.refreshBlockhash,
        Event.wait 1000,
        Event.submit (some "devnet") [Instr.solTransfer]]) := by
  have h := C6_stale_retry.1 solCtxF envStaleF 1 0 0 0 staleErrF "sigB"
    rfl (by decide) (by decide) rfl
  exact h

/-- C7: in a fungible-token transfer whose recipient holding-account query
throws a rate-limited ("429"-shaped or "Too many requests") error, the
error is not propagated: a create-associated-token-account instruction is
appended before the transfer instruction, the outcome is whatever the
submission loop returns, and every submission carries exactly that
2-instruction list with the creation first. -/
theorem C7_rate_limited_recipient_query (W : WalletCtx) (chain : Chain)
    (network : Network) (opts : TransferOptions) (env : Env)
    (tm spk rk : String) (e : JsError)
    (hv : tokenValidate W chain network opts = .ok (tm, spk, rk))
    (hsc : tokenSenderCheck opts env = .ok ())
    (hrec : env.recipientAcct = .err e)
    (_hrl : isRateLimitRecipient e = true) :
    tokenBody W chain network opts env =
      ((tokenRetryLoop network [Instr.createATA, Instr.tokenTransfer] env
          (maxRetries + 1) 0 0).1,
       Event.netTokenAcct "sender" :: Event.netTokenAcct "recipient" ::
         Event.build Instr.createATA :: Event.build Instr.tokenTransfer ::
         Event.refreshBlockhash ::
         (tokenRetryLoop network [Instr.createATA, Instr.tokenTransfer] env
           (maxRetries + 1) 0 0).2) ∧
    ((submitLists (tokenBody W chain network opts env).2).all
      (fun l => l == [Instr.createATA, Instr.tokenTransfer])) = true := by
  have heq : tokenBody W chain network opts env =
      ((tokenRetryLoop network [Instr.createATA, Instr.tokenTransfer] env
          (maxRetries + 1) 0 0).1,
       Event.netTokenAcct "sender" :: Event.netTokenAcct "recipient" ::
         Event.build Instr.createATA :: Event.build Instr.tokenTransfer ::
         Event.refreshBlockhash ::
         (tokenRetryLoop network [Instr.createATA, Instr.tokenTransfer] env
           (maxRetries + 1) 0 0).2) := by
    unfold tokenBody
    rw [hv, hsc, hrec]
    rfl
  refine ⟨heq, ?_⟩
  rw [heq]
  simp only [submitLists_cons, submitLists_append, submitLists_nil,
    List.nil_append, List.append_nil]
  exact tokenRetryLoop_submitLists network [Instr.createATA, Instr.tokenTransfer]
    env (maxRetries + 1) 0 0

/-- C7 witness: the concrete rate-limited recipient query still produces a
2-instruction submission (creation first) and the relay's signature. -/
theorem C7_rate_limited_recipient_query_witness :
    tokenBody wOkF chainF Network.devnet opts5F envRateLimitF =
      ((tokenRetryLoop Network.devnet [Instr.createATA, Instr.tokenTransfer]
          envRateLimitF (maxRetries + 1) 0 0).1,
       Event.netTokenAcct "sender" :: Event.netTokenAcct "recipient" ::
         Event.build Instr.createATA :: Event.build Instr.tokenTransfer ::
         Event.refreshBlockhash ::
         (tokenRetryLoop Network.devnet [Instr.createATA, Instr.tokenTransfer]
           envRateLimitF (maxRetries + 1) 0 0).2) :=
  (C7_rate_limited_recipient_query wOkF chainF Network.devnet opts5F envRateLimitF
    "4zMMC9srt5Ri5X14GAgXhaHii3GnPAEERYPJgZJDncDU" senderAddrF recipAddrF
    rateLimitErrF rfl rfl rfl (by decide)).1

/-- C8: a submission error matching neither the stale-transaction markers
nor the account-not-found markers is re-thrown unchanged (the very same
error value) after exactly one submission: the iteration's trace is the
single submit event, with no wait and no blockhash refresh, in both
retry loops.  (`transferSOL` enters the loop with `retries = 0`, so a
first-attempt unknown error yields exactly one submission overall.) -/
theorem C8_unknown_error_rethrown :
    (∀ cx env fuel retries callIdx pollIdx e,
      env.relay callIdx = .failure e →
      isTransactionTooOld e = false →
      isAccountNotFound e = false →
      solRetryLoop cx env (fuel + 1) retries callIdx pollIdx =
        (.error e,
         [Event.submit (if cx.accountExists then some cx.network.str else none)
            [Instr.solTransfer]])) ∧
    (∀ network instrs env fuel retries callIdx e,
      env.relay callIdx = .failure e →
      isTransactionTooOld e = false →
      tokenRetryLoop network instrs env (fuel + 1) retries callIdx =
        (.error e, [Event.submit (some network.str) instrs])) := by
  constructor
  . intro cx env fuel retries c p e hrel htto hanf
    simp only [solRetryLoop]
    rw [hrel]
    simp [htto, hanf]
  . intro network instrs env fuel retries c e hrel htto
    simp only [tokenRetryLoop]
    rw [hrel]
    simp [htto]

/-- C8 witness: a concrete unclassified error is re-thrown as-is after a
single submission. -/
theorem C8_unknown_error_rethrown_witness :
    solRetryLoop solCtxF envUnknownF 3 0 0 0 =
      (.error unknownErrF,
       [Event.submit (some "devnet") [Instr.solTransfer]]) :=
  C8_unknown_error_rethrown.1 solCtxF envUnknownF 2 0 0 0 unknownErrF
    rfl (by decide) (by decide)

/-- C9: the `isTransferring` flag discipline.  Replaying any
`transferSOL`/`transferToken` trace from a cleared flag ends with the flag
cleared (every termination path — signature returned or error thrown —
leaves `isTransferring = false`), and whenever a submission was attempted
the trace opens with the `setIsTransferring(true)` write and closes with
the `finally` `setIsTransferring(false)` write. -/
theorem C9_transferring_flag (W : WalletCtx) (chain : Chain)
    (network : Network) (opts : TransferOptions) (env : Env) :
    (foldFlag (transferSOL W chain network opts env).2 false = false ∧
     (1 ≤ countSubmits (transferSOL W chain network opts env).2 →
       (transferSOL W chain network opts env).2.head? = some (Event.setFlag true) ∧
       (transferSOL W chain network opts env).2.getLast? = some (Event.setFlag false))) ∧
    (foldFlag (transferToken W chain network opts env).2 false = false ∧
     (1 ≤ countSubmits (transferToken W chain network opts env).2 →
       (transferToken W chain network opts env).2.head? = some (Event.setFlag true) ∧
       (transferToken W chain network opts env).2.getLast? = some (Event.setFlag false))) := by
  constructor
  . rcases transferSOL_trace_cases W chain network opts env with h | h <;> rw [h]
    . exact ⟨rfl, by simp⟩
    . constructor
      . simp
      . intro hs
        constructor
        . rfl
        . rw [← List.cons_append]
          exact List.getLast?_concat _
  . rcases transferToken_trace_cases W chain network opts env with h | h <;> rw [h]
    . exact ⟨rfl, by simp⟩
    . constructor
      . simp
      . intro hs
        constructor
        . rfl
        . rw [← List.cons_append]
          exact List.getLast?_concat _

/-- C9 witness: on the benign run (one submission) the flag opens true,
closes false, and replays to false. -/
theorem C9_transferring_flag_witness :
    (transferSOL wOkF chainF Network.devnet optsOkF benignEnvF).2.head? =
      some (Event.setFlag true) ∧
    (transferSOL wOkF chainF Network.devnet optsOkF benignEnvF).2.getLast? =
      some (Event.setFlag false) :=
  ((C9_transferring_flag wOkF chainF Network.devnet optsOkF benignEnvF).1).2 (by decide)

/-- C10: exhibit of the divergence.  With a sender token-account balance
of 0 and a 5-unit transfer (balance strictly below `amount * 10^6`), the
claimed insufficient-balance rejection does not happen: the thrown
insufficient-balance error is swallowed by the enclosing catch
(`tokenSenderCatch` falls through to its "log and proceed" branch), one
submission is attempted and the call returns the relay signature. -/
theorem C10_insufficient_balance_swallowed :
    balanceLtRequired 0 opts5F.amount = true ∧
    tokenSenderCheck opts5F envPoorF = .ok () ∧
    (transferToken wOkF chainF Network.devnet opts5F envPoorF).1 = Except.ok "sigA" ∧
    countSubmits (transferToken wOkF chainF Network.devnet opts5F envPoorF).2 = 1 :=
  ⟨by decide, rfl, rfl, by decide⟩

end Gasless
